import Mathlib

/-!
Verification of the information-catastrophe notebook models
(`info_catastrophe_nb.py`).

The script defines three pure evaluators over floating-point numbers:

* `bits_estimation n f N_b`      = log10 ((N_b / f) * ((f + 1)^(n+1) - 1))
* `power_requirement n f N_b T`  = log10 (N_b * k_B * T * ln 2 * (f + 1)^n / annual_seconds)
* `mass_energy_equivalent n f N_b T`
                                 = log10 (N_b * (m_bit / f) * ((f + 1)^(n+1) - 1))
  where m_bit = k_B * T * ln 2 / c^2,

each wrapped in `try ... except OverflowError: return np.nan`, plus a sweep
over `years = range(1, 10001)` and `growth_rates = [0.01, 0.05, 0.2, 0.5]`
and a two-panel plot.

We embed the float arithmetic into ℝ.  The Python-level control flow is kept
explicit: the only operation of the script that can raise `OverflowError` is
the float power `(f + 1) ** k` (CPython raises exactly when the magnitude of
the result exceeds the largest finite double).  Division by `f = 0` behaves
differently in the two evaluators that perform it: in `bits_estimation` the
dividend `N_b` is a builtin Python float, so `N_b / 0` raises
`ZeroDivisionError`, which the `except OverflowError` handler does NOT
catch; in `mass_energy_equivalent` the dividend `m_bit` is an `np.float64`
(because of the `np.log(2)` factor), so `m_bit / 0` merely warns and yields
`inf`, which the subsequent multiplication by zero turns into `nan`.  An
evaluator call therefore ends in one of three ways, captured by `PyResult`:
a returned value, the `np.nan` sentinel, or an uncaught exception.
-/

namespace InfoCatastrophe

/-- Python runtime faults that the arithmetic of the script can raise. -/
inductive PyErr : Type
  | zeroDivision : PyErr
  | overflow : PyErr
deriving DecidableEq

/-- Outcome of calling one of the evaluators: a returned real value, the
`np.nan` sentinel returned by the `except OverflowError` handler, or an
uncaught exception propagating out of the function. -/
inductive PyResult : Type
  | val (x : ℝ) : PyResult
  | nan : PyResult
  | exn (e : PyErr) : PyResult

/-- Largest finite IEEE-754 double; CPython raises `OverflowError` from
`float.__pow__` when the true result exceeds this magnitude. -/
noncomputable def maxFloat : ℝ := 1.7976931348623157e308

/-- Boltzmann constant literal from the script. -/
noncomputable def k_B : ℝ := 1.38064852e-23

/-- `annual_seconds` literal from the script (seconds per year). -/
noncomputable def annual_seconds : ℝ := 3.154e7

/-- Speed-of-light literal from the script. -/
noncomputable def c : ℝ := 3.0e8

/-- Default baseline annual bit-production rate (`N_b=7.3E21`). -/
noncomputable def N_b_default : ℝ := 7.3e21

/-- Value computed by `bits_estimation` on its non-erroring path:
`np.log10((N_b/f) * ((f + 1)**(n + 1) - 1))`. -/
noncomputable def bitsVal (n : ℕ) (f N_b : ℝ) : ℝ :=
  Real.logb 10 ((N_b / f) * ((f + 1) ^ (n + 1) - 1))

/-- `bits_estimation(n, f, N_b)`.  Evaluation order of
`(N_b/f) * ((f + 1)**(n + 1) - 1)`: the division `N_b/f` runs first and
raises `ZeroDivisionError` when `f = 0` (not caught by the handler); then the
power runs and raises `OverflowError` when it exceeds the double range, which
the handler converts to `np.nan`. -/
noncomputable def bits_estimation (n : ℕ) (f N_b : ℝ) : PyResult :=
  if f = 0 then .exn .zeroDivision
  else if maxFloat < (f + 1) ^ (n + 1) then .nan
  else .val (bitsVal n f N_b)

/-- Value computed by `power_requirement` on its non-erroring path:
`energy = N_b * k_B * T * np.log(2) * (f + 1)**n` then
`np.log10(energy / annual_seconds)`. -/
noncomputable def powerVal (n : ℕ) (f N_b T : ℝ) : ℝ :=
  Real.logb 10 (N_b * k_B * T * Real.log 2 * (f + 1) ^ n / annual_seconds)

/-- `power_requirement(n, f, N_b, T)`.  No division by `f` occurs here; the
only fallible operation is the power, converted to `np.nan` on overflow. -/
noncomputable def power_requirement (n : ℕ) (f N_b T : ℝ) : PyResult :=
  if maxFloat < (f + 1) ^ n then .nan
  else .val (powerVal n f N_b T)

/-- Mass of one bit at temperature `T`: `m_bit = k_B * T * np.log(2) / c**2`. -/
noncomputable def m_bit (T : ℝ) : ℝ := k_B * T * Real.log 2 / c ^ 2

/-- Value computed by `mass_energy_equivalent` on its non-erroring path:
`np.log10(N_b * (m_bit / f) * ((f + 1)**(n+1) - 1))`. -/
noncomputable def massVal (n : ℕ) (f N_b T : ℝ) : ℝ :=
  Real.logb 10 (N_b * (m_bit T / f) * ((f + 1) ^ (n + 1) - 1))

/-- `mass_energy_equivalent(n, f, N_b, T)`.  Unlike in `bits_estimation`,
the dividend `m_bit` is an `np.float64` (the `np.log(2)` factor makes the
product a NumPy scalar), so at `f = 0` the division `m_bit / f` does not
raise: NumPy emits a `RuntimeWarning` and yields `inf`, after which
`N_b * inf * ((0 + 1)**(n+1) - 1) = inf * 0 = nan` and `np.log10(nan)` is
`nan` — the function returns the undefined sentinel.  For `f ≠ 0` the power
can raise `OverflowError`, caught and converted to `np.nan`. -/
noncomputable def mass_energy_equivalent (n : ℕ) (f N_b T : ℝ) : PyResult :=
  if f = 0 then .nan
  else if maxFloat < (f + 1) ^ (n + 1) then .nan
  else .val (massVal n f N_b T)

/-- `years = list(range(1, 10001))`. -/
def years : List ℕ := List.range' 1 10000

/-- `growth_rates = [0.01, 0.05, 0.2, 0.5]`. -/
noncomputable def growth_rates : List ℝ := [0.01, 0.05, 0.2, 0.5]

/-- The growth-model sweep `bits = [bits_estimation(y, f) for y in years]`
(with the default `N_b`). -/
noncomputable def growthSweep (f : ℝ) : List PyResult :=
  years.map (fun y => bits_estimation y f N_b_default)

/-- The series the script passes to `ax[0].plot` (the axis titled
`Power Requirement of Digital Bit Production`): it is the list named `bits`
in the final loop, i.e. `[mass_energy_equivalent(y, f) for y in years]`. -/
noncomputable def powerChartLine (f : ℝ) : List PyResult :=
  years.map (fun y => mass_energy_equivalent y f N_b_default 300)

/-- The series the script passes to `ax[1].plot` (the axis titled
`Information Mass of Digital Bit Production`): also the list named `bits`,
i.e. `[mass_energy_equivalent(y, f) for y in years]`. -/
noncomputable def massChartLine (f : ℝ) : List PyResult :=
  years.map (fun y => mass_energy_equivalent y f N_b_default 300)

/-- The list named `power` in the final loop,
`[power_requirement(y, f) for y in years]`; the script computes it but never
passes it to any `plot` call. -/
noncomputable def powerSeries (f : ℝ) : List PyResult :=
  years.map (fun y => power_requirement y f N_b_default 300)

/-! ### Helper lemmas -/

lemma ten_pos : (0 : ℝ) < 10 := by norm_num

lemma one_lt_ten : (1 : ℝ) < 10 := by norm_num

lemma log_two_pos : (0 : ℝ) < Real.log 2 := Real.log_pos (by norm_num)

/-- Geometric-sum form of the compounding numerator:
`(f + 1)^(n+1) - 1 = (∑ i < n+1, (f + 1)^i) * f`. -/
lemma pow_succ_sub_one_eq_sum_mul (f : ℝ) (n : ℕ) :
    (f + 1) ^ (n + 1) - 1 = (∑ i ∈ Finset.range (n + 1), (f + 1) ^ i) * f := by
  have h := geom_sum_mul (f + 1) (n + 1)
  simpa using h.symm

/-- Claim C1 helper: with `f ≠ 0` the growth-model argument is
`N_b` times a geometric sum. -/
lemma bits_arg_eq_sum (n : ℕ) (f N_b : ℝ) (hf : f ≠ 0) :
    (N_b / f) * ((f + 1) ^ (n + 1) - 1) =
      N_b * ∑ i ∈ Finset.range (n + 1), (f + 1) ^ i := by
  rw [pow_succ_sub_one_eq_sum_mul]
  field_simp
  ring

/-- Lower `logb` bound from a power comparison: if `10^m < x^k` then
`m / k < logb 10 x`. -/
lemma lt_logb_of_pow_lt {x : ℝ} {k m : ℕ} (hk : 0 < k) (hx : 0 < x)
    (h : (10 : ℝ) ^ m < x ^ k) : (m : ℝ) / k < Real.logb 10 x := by
  have h1 : Real.logb 10 ((10 : ℝ) ^ m) < Real.logb 10 (x ^ k) :=
    Real.logb_lt_logb one_lt_ten (pow_pos ten_pos m) h
  rw [Real.logb_pow, Real.logb_pow, Real.logb_self_eq_one one_lt_ten, mul_one] at h1
  rw [div_lt_iff (by exact_mod_cast hk)]
  linarith [h1]

/-- Upper `logb` bound from a power comparison: if `x^k < 10^m` then
`logb 10 x < m / k`. -/
lemma logb_lt_of_pow_lt {x : ℝ} {k m : ℕ} (hk : 0 < k) (hx : 0 < x)
    (h : x ^ k < (10 : ℝ) ^ m) : Real.logb 10 x < (m : ℝ) / k := by
  have h1 : Real.logb 10 (x ^ k) < Real.logb 10 ((10 : ℝ) ^ m) :=
    Real.logb_lt_logb one_lt_ten (pow_pos hx k) h
  rw [Real.logb_pow, Real.logb_pow, Real.logb_self_eq_one one_lt_ten, mul_one] at h1
  rw [lt_div_iff (by exact_mod_cast hk)]
  linarith [h1]

/-! ### Claims -/

/-- Claim C1: for a year offset `n`, a growth rate `f` with `0 < f ≤ 1` and a
positive baseline `N_b`, when the compounding power does not overflow,
`bits_estimation` returns `log10 ((N_b / f) * ((f + 1)^(n+1) - 1))`. -/
theorem bits_estimation_closed_form (n : ℕ) (f N_b : ℝ)
    (hf : 0 < f) (hf1 : f ≤ 1) (hN : 0 < N_b)
    (hov : (f + 1) ^ (n + 1) ≤ maxFloat) :
    bits_estimation n f N_b =
      .val (Real.logb 10 ((N_b / f) * ((f + 1) ^ (n + 1) - 1))) := by
  rw [bits_estimation, if_neg hf.ne', if_neg (not_lt.mpr hov), bitsVal]

/-- Witness for claim C1 at `n = 3`, `f = 1/2`, `N_b = 73`. -/
theorem bits_estimation_closed_form_witness :
    (0 : ℝ) < 1 / 2 ∧ (1 / 2 : ℝ) ≤ 1 ∧ (0 : ℝ) < 73 ∧
      ((1 / 2 : ℝ) + 1) ^ (3 + 1) ≤ maxFloat ∧
      bits_estimation 3 (1 / 2) 73 =
        .val (Real.logb 10 ((73 / (1 / 2)) * ((1 / 2 + 1) ^ (3 + 1) - 1))) :=
  ⟨by norm_num, by norm_num, by norm_num, by norm_num [maxFloat],
    bits_estimation_closed_form 3 (1 / 2) 73 (by norm_num) (by norm_num)
      (by norm_num) (by norm_num [maxFloat])⟩

/-- Claim C2: for a year index `n`, a growth rate `f` with `0 < f ≤ 1`,
positive `N_b` and temperature `T`, when the compounding power does not
overflow, `power_requirement` returns
`log10 (N_b * k_B * T * ln 2 * (f + 1)^n / seconds_per_year)` with
`k_B = 1.38064852e-23` and `seconds_per_year = 3.154e7`. -/
theorem power_requirement_closed_form (n : ℕ) (f N_b T : ℝ)
    (hf : 0 < f) (hf1 : f ≤ 1) (hN : 0 < N_b)
    (hov : (f + 1) ^ n ≤ maxFloat) :
    power_requirement n f N_b T =
      .val (Real.logb 10
        (N_b * 1.38064852e-23 * T * Real.log 2 * (f + 1) ^ n / 3.154e7)) := by
  rw [power_requirement, if_neg (not_lt.mpr hov)]
  unfold powerVal k_B annual_seconds
  rfl

/-- Witness for claim C2 at `n = 2`, `f = 1/2`, `N_b = 73`, `T = 300`. -/
theorem power_requirement_closed_form_witness :
    (0 : ℝ) < 1 / 2 ∧ (1 / 2 : ℝ) ≤ 1 ∧ (0 : ℝ) < 73 ∧
      ((1 / 2 : ℝ) + 1) ^ 2 ≤ maxFloat ∧
      power_requirement 2 (1 / 2) 73 300 =
        .val (Real.logb 10
          (73 * 1.38064852e-23 * 300 * Real.log 2 * (1 / 2 + 1) ^ 2 / 3.154e7)) :=
  ⟨by norm_num, by norm_num, by norm_num, by norm_num [maxFloat],
    power_requirement_closed_form 2 (1 / 2) 73 300 (by norm_num) (by norm_num)
      (by norm_num) (by norm_num [maxFloat])⟩

/-- Claim C3: for a year index `n`, a growth rate `f` with `0 < f ≤ 1`,
positive `N_b` and temperature `T`, when the compounding power does not
overflow, `mass_energy_equivalent` returns
`log10 (N_b * (m_bit / f) * ((f + 1)^(n+1) - 1))` with
`m_bit = k_B * T * ln 2 / c^2`, `k_B = 1.38064852e-23` and `c = 3.0e8`. -/
theorem mass_energy_equivalent_closed_form (n : ℕ) (f N_b T : ℝ)
    (hf : 0 < f) (hf1 : f ≤ 1) (hN : 0 < N_b)
    (hov : (f + 1) ^ (n + 1) ≤ maxFloat) :
    mass_energy_equivalent n f N_b T =
      .val (Real.logb 10
        (N_b * ((1.38064852e-23 * T * Real.log 2 / (3.0e8) ^ 2) / f) *
          ((f + 1) ^ (n + 1) - 1))) := by
  rw [mass_energy_equivalent, if_neg hf.ne', if_neg (not_lt.mpr hov)]
  unfold massVal m_bit k_B c
  rfl

/-- Witness for claim C3 at `n = 3`, `f = 1/2`, `N_b = 73`, `T = 300`. -/
theorem mass_energy_equivalent_closed_form_witness :
    (0 : ℝ) < 1 / 2 ∧ (1 / 2 : ℝ) ≤ 1 ∧ (0 : ℝ) < 73 ∧
      ((1 / 2 : ℝ) + 1) ^ (3 + 1) ≤ maxFloat ∧
      mass_energy_equivalent 3 (1 / 2) 73 300 =
        .val (Real.logb 10
          (73 * ((1.38064852e-23 * 300 * Real.log 2 / (3.0e8) ^ 2) / (1 / 2)) *
            ((1 / 2 + 1) ^ (3 + 1) - 1))) :=
  ⟨by norm_num, by norm_num, by norm_num, by norm_num [maxFloat],
    mass_energy_equivalent_closed_form 3 (1 / 2) 73 300 (by norm_num)
      (by norm_num) (by norm_num) (by norm_num [maxFloat])⟩

lemma three_halves_pow_overflows : maxFloat < (3 / 2 : ℝ) ^ 10001 := by
  have h1 : maxFloat < (2 : ℝ) ^ 1024 := by norm_num [maxFloat]
  have h2 : (2 : ℝ) ^ 1024 ≤ ((3 / 2 : ℝ) ^ 3) ^ 1024 :=
    pow_le_pow_left₀ (by norm_num) (by norm_num) 1024
  have h3 : ((3 / 2 : ℝ) ^ 3) ^ 1024 = (3 / 2 : ℝ) ^ 3072 := by
    rw [← pow_mul]
  have h4 : ((3 / 2 : ℝ)) ^ 3072 ≤ (3 / 2 : ℝ) ^ 10001 :=
    pow_le_pow_right₀ (by norm_num) (by norm_num)
  linarith

/-- Claim C4: at `n = 10000`, `f = 0.5` the compounding power exceeds the
double range, so both the growth and the mass evaluator return the `np.nan`
sentinel (no uncaught fault), and the sweep over `years = 1..10000` still
yields a series of the same length as the time domain, aligned index by
index. -/
theorem overflow_sentinel_sweep_aligned :
    bits_estimation 10000 (1 / 2) N_b_default = .nan ∧
    mass_energy_equivalent 10000 (1 / 2) N_b_default 300 = .nan ∧
    (growthSweep (1 / 2)).length = years.length ∧
    ∀ i : ℕ, (growthSweep (1 / 2)).get? i =
      (years.get? i).map (fun y => bits_estimation y (1 / 2) N_b_default) := by
  have hov : maxFloat < ((1 / 2 : ℝ) + 1) ^ (10000 + 1) := by
    have h := three_halves_pow_overflows
    have h2 : ((1 / 2 : ℝ) + 1) = 3 / 2 := by norm_num
    rw [h2]
    exact h
  refine ⟨?_, ?_, ?_, ?_⟩
  · rw [bits_estimation, if_neg (by norm_num : ¬ ((1 / 2 : ℝ) = 0)), if_pos hov]
  · rw [mass_energy_equivalent, if_neg (by norm_num : ¬ ((1 / 2 : ℝ) = 0)),
      if_pos hov]
  · simp [growthSweep]
  · intro i
    simp [growthSweep, List.get?_map]

/-- Claim C6 (code bug): at `f = 0` the growth evaluator is neither an
explicit rejection nor the undefined sentinel — the builtin-float division
`N_b / 0` raises `ZeroDivisionError`, which the `except OverflowError`
handler does not catch, so an unhandled division-by-zero fault propagates
out of `bits_estimation`.  The mass evaluator, by contrast, does satisfy the
claim: its NumPy-scalar division only yields `inf`, and the evaluator
returns the `nan` sentinel. -/
theorem zero_rate_uncaught_zero_division :
    bits_estimation 1 0 N_b_default = .exn .zeroDivision ∧
    mass_energy_equivalent 1 0 N_b_default 300 = .nan ∧
    PyResult.exn PyErr.zeroDivision ≠ PyResult.nan := by
  refine ⟨?_, ?_, ?_⟩
  · rw [bits_estimation, if_pos rfl]
  · rw [mass_energy_equivalent, if_pos rfl]
  · intro h
    exact PyResult.noConfusion h

lemma logb_ten_mantissa_lo : (21.863 : ℝ) < Real.logb 10 (7.3e21 : ℝ) := by
  have hN : (10 : ℕ) ^ 1863 < 73 ^ 1000 := by norm_num
  have hR : (10 : ℝ) ^ 1863 < (73 : ℝ) ^ 1000 := by exact_mod_cast hN
  have hkey : (10 : ℝ) ^ 21863 < (7.3e21 : ℝ) ^ 1000 := by
    have h73 : (7.3e21 : ℝ) = 73 * 10 ^ 20 := by norm_num
    rw [h73, mul_pow, ← pow_mul]
    calc (10 : ℝ) ^ 21863 = 10 ^ 1863 * 10 ^ 20000 := by rw [← pow_add]
    _ < (73 : ℝ) ^ 1000 * 10 ^ 20000 := by
        exact mul_lt_mul_of_pos_right hR (by positivity)
  have h := lt_logb_of_pow_lt (x := (7.3e21 : ℝ)) (k := 1000) (m := 21863)
    (by norm_num) (by norm_num) hkey
  have : ((21863 : ℕ) : ℝ) / (1000 : ℕ) = 21.863 := by norm_num
  linarith [h, this.symm.le]

lemma logb_ten_mantissa_hi : Real.logb 10 (7.3e21 : ℝ) < 21.864 := by
  have hN : (73 : ℕ) ^ 1000 < 10 ^ 1864 := by norm_num
  have hR : (73 : ℝ) ^ 1000 < (10 : ℝ) ^ 1864 := by exact_mod_cast hN
  have hkey : (7.3e21 : ℝ) ^ 1000 < (10 : ℝ) ^ 21864 := by
    have h73 : (7.3e21 : ℝ) = 73 * 10 ^ 20 := by norm_num
    rw [h73, mul_pow, ← pow_mul]
    calc (73 : ℝ) ^ 1000 * 10 ^ 20000 < (10 : ℝ) ^ 1864 * 10 ^ 20000 := by
          exact mul_lt_mul_of_pos_right hR (by positivity)
    _ = (10 : ℝ) ^ 21864 := by rw [← pow_add]
  have h := logb_lt_of_pow_lt (x := (7.3e21 : ℝ)) (k := 1000) (m := 21864)
    (by norm_num) (by norm_num) hkey
  have : ((21864 : ℕ) : ℝ) / (1000 : ℕ) = 21.864 := by norm_num
  linarith [h, this.symm.le]

/-- Claim C8: at `n = 0` the growth model collapses exactly, because
`(f + 1)^1 - 1 = f` cancels the `1 / f` factor: for every `0 < f ≤ 1` and
every `N_b`, `bits_estimation 0 f N_b` returns exactly `log10 N_b`; in
particular with `N_b = 7.3e21` the returned value lies strictly between
`21.863` and `21.864`. -/
theorem growth_at_year_zero (f N_b : ℝ) (hf : 0 < f) (hf1 : f ≤ 1) :
    bits_estimation 0 f N_b = .val (Real.logb 10 N_b) ∧
    21.863 < Real.logb 10 (7.3e21 : ℝ) ∧ Real.logb 10 (7.3e21 : ℝ) < 21.864 := by
  refine ⟨?_, logb_ten_mantissa_lo, logb_ten_mantissa_hi⟩
  have hov : ¬ (maxFloat < (f + 1) ^ (0 + 1)) := by
    rw [not_lt, zero_add, pow_one]
    have : maxFloat = 1.7976931348623157e308 := rfl
    rw [this]
    norm_num
    linarith
  rw [bits_estimation, if_neg hf.ne', if_neg hov, bitsVal]
  congr 1
  rw [zero_add, pow_one, add_sub_cancel_right, div_mul_cancel₀ N_b hf.ne']

/-- Witness for claim C8 at `f = 1/100`, `N_b = 7.3e21`. -/
theorem growth_at_year_zero_witness :
    (0 : ℝ) < 1 / 100 ∧ (1 / 100 : ℝ) ≤ 1 ∧
      (bits_estimation 0 (1 / 100) 7.3e21 = .val (Real.logb 10 (7.3e21 : ℝ)) ∧
        21.863 < Real.logb 10 (7.3e21 : ℝ) ∧
        Real.logb 10 (7.3e21 : ℝ) < 21.864) :=
  ⟨by norm_num, by norm_num,
    growth_at_year_zero (1 / 100) 7.3e21 (by norm_num) (by norm_num)⟩

lemma bitsVal_eq_logb_sum (n : ℕ) (f N_b : ℝ) (hf : f ≠ 0) :
    bitsVal n f N_b =
      Real.logb 10 (N_b * ∑ i ∈ Finset.range (n + 1), (f + 1) ^ i) := by
  rw [bitsVal, bits_arg_eq_sum n f N_b hf]

/-- Claim C9: for growth rates `0 < f1 < f2 ≤ 1` and a fixed year `n > 0`
(at the same `N_b > 0`, and within the range where the faster scenario does
not overflow), both evaluators return values and the value at `f2` is at
least the value at `f1`: faster growth never yields fewer accumulated
bits. -/
theorem growth_monotone_in_rate (n : ℕ) (f1 f2 N_b : ℝ)
    (hf1 : 0 < f1) (h12 : f1 < f2) (hf2 : f2 ≤ 1) (hN : 0 < N_b) (hn : 0 < n)
    (hov : (f2 + 1) ^ (n + 1) ≤ maxFloat) :
    bits_estimation n f1 N_b = .val (bitsVal n f1 N_b) ∧
    bits_estimation n f2 N_b = .val (bitsVal n f2 N_b) ∧
    bitsVal n f1 N_b ≤ bitsVal n f2 N_b := by
  have hf2' : (0 : ℝ) < f2 := lt_trans hf1 h12
  have hov1 : (f1 + 1) ^ (n + 1) ≤ maxFloat :=
    le_trans (pow_le_pow_left₀ (by linarith) (by linarith) (n + 1)) hov
  refine ⟨?_, ?_, ?_⟩
  · rw [bits_estimation, if_neg hf1.ne', if_neg (not_lt.mpr hov1)]
  · rw [bits_estimation, if_neg hf2'.ne', if_neg (not_lt.mpr hov)]
  · rw [bitsVal_eq_logb_sum n f1 N_b hf1.ne', bitsVal_eq_logb_sum n f2 N_b hf2'.ne']
    have hs1 : 0 < ∑ i ∈ Finset.range (n + 1), (f1 + 1) ^ i :=
      Finset.sum_pos (fun i _ => pow_pos (by linarith) i) (by simp)
    apply Real.logb_le_logb_of_le one_lt_ten (mul_pos hN hs1)
    apply mul_le_mul_of_nonneg_left _ hN.le
    exact Finset.sum_le_sum fun i _ => pow_le_pow_left₀ (by linarith) (by linarith) i

/-- Witness for claim C9 at `n = 1`, `f1 = 1/100`, `f2 = 1/2`, `N_b = 73`. -/
theorem growth_monotone_in_rate_witness :
    (0 : ℝ) < 1 / 100 ∧ (1 / 100 : ℝ) < 1 / 2 ∧ (1 / 2 : ℝ) ≤ 1 ∧
      (0 : ℝ) < 73 ∧ 0 < 1 ∧ ((1 / 2 : ℝ) + 1) ^ (1 + 1) ≤ maxFloat ∧
      (bits_estimation 1 (1 / 100) 73 = .val (bitsVal 1 (1 / 100) 73) ∧
        bits_estimation 1 (1 / 2) 73 = .val (bitsVal 1 (1 / 2) 73) ∧
        bitsVal 1 (1 / 100) 73 ≤ bitsVal 1 (1 / 2) 73) :=
  ⟨by norm_num, by norm_num, by norm_num, by norm_num, by norm_num,
    by norm_num [maxFloat],
    growth_monotone_in_rate 1 (1 / 100) (1 / 2) 73 (by norm_num) (by norm_num)
      (by norm_num) (by norm_num) (by norm_num) (by norm_num [maxFloat])⟩

/-- Claim C10: exponentiating the mass-model output back (`10 ^ result`) and
multiplying by `c²` gives exactly the total accumulated energy: the sum over
`k = 0..n` of the yearly Landauer energies `N_b k_B T ln 2 (f+1)^k`, which is
also the sum of `10 ^ power_requirement(k) * annual_seconds`. -/
theorem mass_energy_roundtrip (n : ℕ) (f N_b T : ℝ)
    (hf : 0 < f) (hf1 : f ≤ 1) (hN : 0 < N_b) (hT : 0 < T) :
    (10 : ℝ) ^ massVal n f N_b T * c ^ 2 =
      (∑ k ∈ Finset.range (n + 1), N_b * k_B * T * Real.log 2 * (f + 1) ^ k) ∧
    (10 : ℝ) ^ massVal n f N_b T * c ^ 2 =
      (∑ k ∈ Finset.range (n + 1),
        (10 : ℝ) ^ powerVal k f N_b T * annual_seconds) := by
  have hkB : (0 : ℝ) < k_B := by norm_num [k_B]
  have hc : (0 : ℝ) < c := by norm_num [c]
  have hS : (0 : ℝ) < annual_seconds := by norm_num [annual_seconds]
  have hL := log_two_pos
  have hmb : 0 < m_bit T := by
    rw [m_bit]
    have : (0 : ℝ) < c ^ 2 := by positivity
    positivity
  have hs : 0 < ∑ i ∈ Finset.range (n + 1), (f + 1) ^ i :=
    Finset.sum_pos (fun i _ => pow_pos (by linarith) i) (by simp)
  have hMarg : 0 < N_b * (m_bit T / f) * ((f + 1) ^ (n + 1) - 1) := by
    rw [pow_succ_sub_one_eq_sum_mul]
    exact mul_pos (mul_pos hN (div_pos hmb hf)) (mul_pos hs hf)
  have hrpow : (10 : ℝ) ^ massVal n f N_b T =
      N_b * (m_bit T / f) * ((f + 1) ^ (n + 1) - 1) := by
    rw [massVal]
    exact Real.rpow_logb ten_pos (by norm_num) hMarg
  have h1 : (10 : ℝ) ^ massVal n f N_b T * c ^ 2 =
      (∑ k ∈ Finset.range (n + 1), N_b * k_B * T * Real.log 2 * (f + 1) ^ k) := by
    rw [hrpow, pow_succ_sub_one_eq_sum_mul, ← Finset.mul_sum, m_bit]
    field_simp
    ring
  refine ⟨h1, ?_⟩
  have hterm : ∀ k ∈ Finset.range (n + 1),
      (10 : ℝ) ^ powerVal k f N_b T * annual_seconds =
        N_b * k_B * T * Real.log 2 * (f + 1) ^ k := by
    intro k _
    have hEk : 0 < N_b * k_B * T * Real.log 2 * (f + 1) ^ k / annual_seconds :=
      div_pos
        (mul_pos (mul_pos (mul_pos (mul_pos hN hkB) hT) hL)
          (pow_pos (by linarith) k)) hS
    rw [powerVal, Real.rpow_logb ten_pos (by norm_num) hEk,
      div_mul_cancel₀ _ hS.ne']
  rw [Finset.sum_congr rfl hterm]
  exact h1

/-- Witness for claim C10 at `n = 1`, `f = 1/2`, `N_b = 73`, `T = 300`. -/
theorem mass_energy_roundtrip_witness :
    (0 : ℝ) < 1 / 2 ∧ (1 / 2 : ℝ) ≤ 1 ∧ (0 : ℝ) < 73 ∧ (0 : ℝ) < 300 ∧
      ((10 : ℝ) ^ massVal 1 (1 / 2) 73 300 * c ^ 2 =
        (∑ k ∈ Finset.range (1 + 1),
          73 * k_B * 300 * Real.log 2 * (1 / 2 + 1) ^ k) ∧
      (10 : ℝ) ^ massVal 1 (1 / 2) 73 300 * c ^ 2 =
        (∑ k ∈ Finset.range (1 + 1),
          (10 : ℝ) ^ powerVal k (1 / 2) 73 300 * annual_seconds)) :=
  ⟨by norm_num, by norm_num, by norm_num, by norm_num,
    mass_energy_roundtrip 1 (1 / 2) 73 300 (by norm_num) (by norm_num)
      (by norm_num) (by norm_num)⟩

lemma powerVal_initial_lo : (6.64e-7 : ℝ) <
    7.3e21 * k_B * 300 * Real.log 2 * ((1 / 100 : ℝ) + 1) ^ (0 : ℕ) /
      annual_seconds := by
  have heq : 7.3e21 * k_B * 300 * Real.log 2 * ((1 / 100 : ℝ) + 1) ^ (0 : ℕ) /
      annual_seconds =
      (7.3e21 * 1.38064852e-23 * 300 / 3.154e7) * Real.log 2 := by
    rw [k_B, annual_seconds, pow_zero]
    ring
  rw [heq]
  calc (6.64e-7 : ℝ) <
      (7.3e21 * 1.38064852e-23 * 300 / 3.154e7) * 0.6931471803 := by norm_num
  _ < (7.3e21 * 1.38064852e-23 * 300 / 3.154e7) * Real.log 2 :=
      mul_lt_mul_of_pos_left Real.log_two_gt_d9 (by norm_num)

lemma powerVal_initial_hi :
    7.3e21 * k_B * 300 * Real.log 2 * ((1 / 100 : ℝ) + 1) ^ (0 : ℕ) /
      annual_seconds < 6.65e-7 := by
  have heq : 7.3e21 * k_B * 300 * Real.log 2 * ((1 / 100 : ℝ) + 1) ^ (0 : ℕ) /
      annual_seconds =
      (7.3e21 * 1.38064852e-23 * 300 / 3.154e7) * Real.log 2 := by
    rw [k_B, annual_seconds, pow_zero]
    ring
  rw [heq]
  calc (7.3e21 * 1.38064852e-23 * 300 / 3.154e7) * Real.log 2 <
      (7.3e21 * 1.38064852e-23 * 300 / 3.154e7) * 0.6931471808 :=
      mul_lt_mul_of_pos_left Real.log_two_lt_d9 (by norm_num)
  _ < 6.65e-7 := by norm_num

lemma logb_bounds_between_664_665 {x : ℝ} (hlo : (6.64e-7 : ℝ) < x)
    (hhi : x < 6.65e-7) : -6.2 < Real.logb 10 x ∧ Real.logb 10 x < -6.1 := by
  have hxpos : 0 < x := lt_trans (by norm_num) hlo
  have hsplit : Real.logb 10 (x * 10 ^ 7) = Real.logb 10 x + 7 := by
    rw [Real.logb_mul hxpos.ne' (by positivity), Real.logb_pow,
      Real.logb_self_eq_one one_lt_ten]
    ring
  have hBlo : (6.64 : ℝ) < x * 10 ^ 7 := by nlinarith
  have hBhi : x * 10 ^ 7 < 6.65 := by nlinarith
  have hBpos : 0 < x * 10 ^ 7 := by positivity
  have hlogBlo : ((4 : ℕ) : ℝ) / (5 : ℕ) < Real.logb 10 (x * 10 ^ 7) := by
    apply lt_logb_of_pow_lt (by norm_num) hBpos
    calc (10 : ℝ) ^ 4 < (6.64 : ℝ) ^ 5 := by norm_num
    _ ≤ (x * 10 ^ 7) ^ 5 := pow_le_pow_left₀ (by norm_num) hBlo.le 5
  have hlogBhi : Real.logb 10 (x * 10 ^ 7) < ((9 : ℕ) : ℝ) / (10 : ℕ) := by
    apply logb_lt_of_pow_lt (by norm_num) hBpos
    calc (x * 10 ^ 7) ^ 10 ≤ (6.65 : ℝ) ^ 10 :=
      pow_le_pow_left₀ hBpos.le hBhi.le 10
    _ < (10 : ℝ) ^ 9 := by norm_num
  have hc1 : ((4 : ℕ) : ℝ) / ((5 : ℕ) : ℝ) = 0.8 := by norm_num
  have hc2 : ((9 : ℕ) : ℝ) / ((10 : ℕ) : ℝ) = 0.9 := by norm_num
  rw [hc1] at hlogBlo
  rw [hc2] at hlogBhi
  have hx2 : Real.logb 10 x = Real.logb 10 (x * 10 ^ 7) - 7 := by
    rw [hsplit]
    ring
  constructor
  · rw [hx2]
    linarith
  · rw [hx2]
    linarith

lemma powerVal_initial_bounds :
    -6.2 < powerVal 0 (1 / 100) 7.3e21 300 ∧
      powerVal 0 (1 / 100) 7.3e21 300 < -6.1 := by
  have h := logb_bounds_between_664_665 powerVal_initial_lo powerVal_initial_hi
  rw [powerVal]
  exact h

/-- Claim C5 counterexample: `power_requirement(0, 0.01, 7.3e21, 300)` does
return the `log10` of `k_B T ln 2 N_b / seconds_per_year`, but that value is
below `-6`, hence not approximately `-1.02` (it misses it by more than 1). -/
theorem power_requirement_initial_not_approx :
    power_requirement 0 (1 / 100) 7.3e21 300 =
      .val (powerVal 0 (1 / 100) 7.3e21 300) ∧
    powerVal 0 (1 / 100) 7.3e21 300 < -6 ∧
    ¬ (|powerVal 0 (1 / 100) 7.3e21 300 - (-1.02)| ≤ 1) := by
  obtain ⟨h1, h2⟩ := powerVal_initial_bounds
  refine ⟨?_, by linarith, ?_⟩
  · rw [power_requirement, if_neg]
    rw [not_lt, pow_zero]
    norm_num [maxFloat]
  · intro h
    rw [abs_le] at h
    obtain ⟨ha, hb⟩ := h
    linarith

/-- Claim C5 (amended): `power_requirement(0, 0.01, 7.3e21, 300)` computes
`k_B T ln 2 N_b (f+1)^0 / seconds_per_year` and returns its `log10`; the
returned value lies strictly between `-6.2` and `-6.1` (≈ `-6.18`), not near
`-1.02`. -/
theorem power_requirement_initial_value :
    power_requirement 0 (1 / 100) 7.3e21 300 =
      .val (Real.logb 10
        (7.3e21 * 1.38064852e-23 * 300 * Real.log 2 *
          ((1 / 100 : ℝ) + 1) ^ (0 : ℕ) / 3.154e7)) ∧
    -6.2 < powerVal 0 (1 / 100) 7.3e21 300 ∧
      powerVal 0 (1 / 100) 7.3e21 300 < -6.1 := by
  obtain ⟨h1, h2⟩ := powerVal_initial_bounds
  refine ⟨?_, h1, h2⟩
  rw [power_requirement, if_neg]
  · rw [powerVal]
    unfold k_B annual_seconds
    rfl
  · rw [not_lt, pow_zero]
    norm_num [maxFloat]

lemma mass_lt_power_at_one :
    massVal 1 (1 / 100) N_b_default 300 < powerVal 1 (1 / 100) N_b_default 300 := by
  rw [massVal, powerVal, m_bit, k_B, c, annual_seconds, N_b_default]
  have haM : (7.3e21 : ℝ) *
      (1.38064852e-23 * 300 * Real.log 2 / (3.0e8) ^ 2 / (1 / 100)) *
      (((1 / 100 : ℝ) + 1) ^ (1 + 1) - 1) =
      (7.3e21 * (1.38064852e-23 * 300 / (3.0e8) ^ 2 / (1 / 100)) *
        (((1 / 100 : ℝ) + 1) ^ (1 + 1) - 1)) * Real.log 2 := by
    ring
  have haP : (7.3e21 : ℝ) * 1.38064852e-23 * 300 * Real.log 2 *
      ((1 / 100 : ℝ) + 1) ^ 1 / 3.154e7 =
      (7.3e21 * 1.38064852e-23 * 300 * ((1 / 100 : ℝ) + 1) ^ 1 / 3.154e7) *
        Real.log 2 := by
    ring
  rw [haM, haP]
  apply Real.logb_lt_logb one_lt_ten
  · exact mul_pos (by norm_num) log_two_pos
  · exact mul_lt_mul_of_pos_right (by norm_num) log_two_pos

/-- Claim C7 (code bug): the series the script draws on the chart titled
`Power Requirement of Digital Bit Production` is the list `bits` built from
`mass_energy_equivalent`, not the list `power` built from
`power_requirement` (which is computed and then never plotted); and at the
first plotted year the two genuinely differ. -/
theorem power_chart_shows_mass_series :
    powerChartLine (1 / 100) =
      years.map (fun y => mass_energy_equivalent y (1 / 100) N_b_default 300) ∧
    massChartLine (1 / 100) = powerChartLine (1 / 100) ∧
    mass_energy_equivalent 1 (1 / 100) N_b_default 300 ≠
      power_requirement 1 (1 / 100) N_b_default 300 := by
  refine ⟨rfl, rfl, ?_⟩
  have hm : mass_energy_equivalent 1 (1 / 100) N_b_default 300 =
      .val (massVal 1 (1 / 100) N_b_default 300) := by
    rw [mass_energy_equivalent, if_neg (by norm_num : ¬ ((1 / 100 : ℝ) = 0)),
      if_neg]
    rw [not_lt]
    norm_num [maxFloat]
  have hp : power_requirement 1 (1 / 100) N_b_default 300 =
      .val (powerVal 1 (1 / 100) N_b_default 300) := by
    rw [power_requirement, if_neg]
    rw [not_lt]
    norm_num [maxFloat]
  rw [hm, hp]
  intro h
  rw [PyResult.val.injEq] at h
  exact absurd h (ne_of_lt mass_lt_power_at_one)

end InfoCatastrophe
